import Mathlib

/-!
# sandpass: request dispatch and error classification (handle.go)

A shallow embedding of `handle.go`: the permission gate `checkPerm`, the
dispatcher `appHandler.ServeHTTP` and the scoped form parser
`parseMultipartForm`.

Modelling conventions.

* A response sink (`http.ResponseWriter`) is the record of the calls made on
  it, oldest first.  `net/http` is not part of the repository, so `http.Error`
  and `http.Redirect` are recorded as calls with their arguments.
* The process state (`World`) is the record of the calls made on the `log`
  package and on `multipart.Form.RemoveAll`, oldest first, together with the
  state owned by the handlers.
* A handler is a state transformer: it receives the sink, the request and the
  world, and gives back the sink and the world it leaves.
* The two command-line flags read by the code are fields of `Flags`.
* Library functions whose result depends on the request body or on the file
  system (`ParseMultipartForm`, `RemoveAll`) and the permission check of
  `pkg/sandstormhdr` are fields of `Deps`; every theorem holds for all of them.
* `none` as the result of a handler stands for a run-time panic (calling a
  nil function, dereferencing a nil form).
-/

namespace Sandpass

/-! ## Data model -/

/-- Go `error` values that `ParseMultipartForm` and `RemoveAll` can return.
`ErrNotMultipart` is the sentinel `http.ErrNotMultipart`, which the source
compares against with `==`. -/
inductive GoError where
  | ErrNotMultipart
  | errorString (msg : String)
  deriving DecidableEq

/-- The method `Error()` of a Go error. -/
def GoError.Error : GoError → String
  | .ErrNotMultipart => "request Content-Type isn't multipart/form-data"
  | .errorString msg => msg

/-- The type `multipart.Form`: parsed values and the temporary files the
parts were spilled to. -/
structure MultipartForm where
  Value : List (String × String)
  File : List String
  deriving DecidableEq

/-- The type `http.Request`, with the fields the code reads. -/
structure Request where
  Method : String
  Path : String
  Header : List (String × String)
  Body : String
  MultipartForm : Option MultipartForm
  deriving DecidableEq

/-- One call made on a response sink. -/
inductive WriterCall where
  | setHeader (key value : String)
  | writeHeader (code : Int)
  | write (bytes : String)
  | httpError (msg : String) (code : Int)
  | httpRedirect (r : Request) (url : String) (code : Int)
  deriving DecidableEq

/-- A response sink: the calls made on it so far, oldest first. -/
abbrev ResponseWriter := List WriterCall

/-- The call `http.Error(w, msg, code)`. -/
def httpError (w : ResponseWriter) (msg : String) (code : Int) : ResponseWriter :=
  w ++ [WriterCall.httpError msg code]

/-- The call `http.Redirect(w, r, url, code)`. -/
def httpRedirect (w : ResponseWriter) (r : Request) (url : String) (code : Int) :
    ResponseWriter :=
  w ++ [WriterCall.httpRedirect r url code]

/-- The constant `http.StatusForbidden`. -/
def StatusForbidden : Int := 403

/-- The constant `http.StatusBadRequest`. -/
def StatusBadRequest : Int := 400

/-- The constant `http.StatusInternalServerError`. -/
def StatusInternalServerError : Int := 500

/-- One call with an effect outside the response sink. -/
inductive Effect where
  | logged (line : String)
  | removedAll (form : MultipartForm)
  deriving DecidableEq

/-- The process state: the effects so far, oldest first, and the state owned
by the handlers. -/
structure World (S : Type) where
  effects : List Effect
  app : S
  deriving DecidableEq

/-- The calls `log.Printf` and `log.Println`, with the formatted line. -/
def logPrintf {S : Type} (line : String) (σ : World S) : World S :=
  { σ with effects := σ.effects ++ [Effect.logged line] }

/-- The flags `max_form_memory` and `permissions` (lines 29-30). -/
structure Flags where
  maxFormMemory : Int
  permissions : Bool
  deriving DecidableEq

/-- The values the flags have when the command line does not set them. -/
def Flags.defaults : Flags :=
  { maxFormMemory := 512 * 1024, permissions := true }

/-- Functions of other packages that the code calls.  `ParseMultipartForm`
gives the request as the call leaves it and the error it returns;
`parsed_form` is the guarantee of `net/http` that a call returning nil has set
`r.MultipartForm`. -/
structure Deps where
  HasPermission : List (String × String) → String → Bool
  ParseMultipartForm : Request → Int → Request × Option GoError
  RemoveAll : MultipartForm → Option GoError
  parsed_form : ∀ r n, (ParseMultipartForm r n).2 = none →
    (ParseMultipartForm r n).1.MultipartForm ≠ none

/-- The type `http.Handler`, through its method `ServeHTTP`. -/
abbrev Handler (S : Type) :=
  ResponseWriter → Request → World S → Option (ResponseWriter × World S)

/-! ## The permission gate -/

/-- The function `checkPerm` (lines 33-45). -/
def checkPerm {S : Type} (d : Deps) (fl : Flags) (perm : String) (h : Handler S) :
    Handler S :=
  if !fl.permissions then
    h
  else
    fun w r σ =>
      if !d.HasPermission r.Header perm then
        some (httpError w "Forbidden" StatusForbidden, σ)
      else
        h w r σ

/-! ## The response tracker -/

/-- Modelled from the spec: the package `third_party/responsestats` is not
among the sources.  The tracker wraps a response sink and has the attributes
`statusCode` (0 = unset) and `bytesWritten`. -/
structure ResponseStats where
  w : ResponseWriter
  statusCode : Int
  bytesWritten : Nat
  deriving DecidableEq

/-- Modelled from the spec: `responsestats.New(w)`, absent from the sources.
The tracker is created around the sink with nothing observed yet. -/
def ResponseStats.New (w : ResponseWriter) : ResponseStats :=
  { w := w, statusCode := 0, bytesWritten := 0 }

/-- Modelled from the spec: the method `StatusCode()` of the tracker, absent
from the sources: the status code written so far, or the zero value if none
has been written yet. -/
def ResponseStats.StatusCode (stats : ResponseStats) : Int :=
  stats.statusCode

/-- Modelled from the spec: the method `WriteHeader` of the tracker, absent
from the sources.  The call passes through to the sink unmodified and the
tracker observes the status code, which is set at most once. -/
def ResponseStats.WriteHeader (stats : ResponseStats) (code : Int) : ResponseStats :=
  { stats with
    w := stats.w ++ [WriterCall.writeHeader code]
    statusCode := if stats.statusCode = 0 then code else stats.statusCode }

/-! ## Errors returned by business handlers -/

/-- The helpers the dispatcher applies to the error a handler returns.  They
are defined in a file that is not among the sources, so the dispatcher takes
them as arguments; `Error` is the method `Error()` of the error. -/
structure ErrorOps (E : Type) where
  Error : E → String
  userErrorMessage : E → String
  errorRedirect : E → Int × String
  errorStatusCode : E → Int

/-- The type `appHandler` (line 54): a function of the sink, the request and
the world that gives back the error it returns (`none` for nil), the sink and
the world. -/
abbrev appHandler (E S : Type) :=
  ResponseStats → Request → World S → Option E × ResponseStats × World S

/-! ## The scoped form parser -/

/-- The values `parseMultipartForm` returns as cleanup action: nil, the
function literal of line 90, and the function literal of lines 95-99, which
captures the request. -/
inductive Cleanup where
  | nil
  | noop
  | removeAll (r : Request)
  deriving DecidableEq

/-- Calling a cleanup action.  Lines 95-99 for the one that captures the
request; `none` is the panic of calling nil or of `RemoveAll` on a nil form. -/
def Cleanup.call {S : Type} (d : Deps) : Cleanup → World S → Option (World S)
  | .nil, _ => none
  | .noop, σ => some σ
  | .removeAll r, σ =>
    match r.MultipartForm with
    | none => none
    | some form =>
      let σ1 : World S := { σ with effects := σ.effects ++ [Effect.removedAll form] }
      match d.RemoveAll form with
      | some err => some (logPrintf ("form cleanup: " ++ err.Error) σ1)
      | none => some σ1

/-- The function `parseMultipartForm` (lines 87-100).  The result is the
request as `ParseMultipartForm` leaves it, the cleanup action and the error. -/
def parseMultipartForm (d : Deps) (fl : Flags) (r : Request) :
    Request × Cleanup × Option GoError :=
  let res := d.ParseMultipartForm r fl.maxFormMemory
  let r1 := res.1
  let err := res.2
  if err = some GoError.ErrNotMultipart then
    (r1, Cleanup.noop, none)
  else
    match err with
    | some e => (r1, Cleanup.nil, some e)
    | none => (r1, Cleanup.removeAll r1, none)

/-! ## The dispatcher -/

/-- Lines 66-84 of `appHandler.ServeHTTP`: what the dispatcher does with the
result of the business handler.  The sink `w` of the source is the one the
tracker wraps, so after the handler it holds what the handler wrote through
the tracker. -/
def ServeHTTP.finish {E S : Type} (ops : ErrorOps E) (r : Request) :
    Option E × ResponseStats × World S → ResponseWriter × World S
  | (none, stats, σ) => (stats.w, σ)
  | (some err, stats, σ) =>
    let σ1 :=
      if ops.userErrorMessage err = "" then
        logPrintf (r.Method ++ " " ++ r.Path ++ " server error: " ++ ops.Error err) σ
      else
        logPrintf (r.Method ++ " " ++ r.Path ++ " client error: " ++ ops.Error err) σ
    let code := (ops.errorRedirect err).1
    let u := (ops.errorRedirect err).2
    if u ≠ "" then
      (httpRedirect stats.w r u code, σ1)
    else if stats.StatusCode = 0 then
      let msg := ops.userErrorMessage err
      let msg := if msg = "" then "internal server error; check logs" else msg
      (httpError stats.w msg (ops.errorStatusCode err), σ1)
    else
      (stats.w, σ1)

/-- The method `appHandler.ServeHTTP` (lines 56-85).  The deferred call of
line 63 runs when the function returns, on the world the body leaves. -/
def ServeHTTP {E S : Type} (d : Deps) (fl : Flags) (ops : ErrorOps E)
    (ah : appHandler E S) : Handler S :=
  fun w r σ =>
    match parseMultipartForm d fl r with
    | (r1, _, some err) =>
      let σ1 := logPrintf (r1.Method ++ " " ++ r1.Path ++ " fail form parse: " ++ err.Error) σ
      some (httpError w "could not parse form" StatusBadRequest, σ1)
    | (r1, cleanup, none) =>
      let stats := ResponseStats.New w
      let out := ServeHTTP.finish ops r1 (ah stats r1 σ)
      match cleanup.call d out.2 with
      | none => none
      | some σ3 => some (out.1, σ3)

/-! ## The error descriptor -/

/-- Modelled from the spec: the error type of the business handlers, absent
from the sources.  An empty `userMessage` stands for an absent one, which is
how the dispatcher tests it. -/
structure ErrorDescriptor where
  logMessage : String
  userMessage : String
  statusCode : Option Int
  redirectTarget : Option (Int × String)
  deriving DecidableEq

/-- Modelled from the spec: the helper `userErrorMessage`, absent from the
sources: the message that is safe to show to the caller. -/
def userErrorMessage (e : ErrorDescriptor) : String :=
  e.userMessage

/-- Modelled from the spec: the helper `errorRedirect`, absent from the
sources: the status code and URL of the redirect target, the zero values when
there is none. -/
def errorRedirect (e : ErrorDescriptor) : Int × String :=
  match e.redirectTarget with
  | some t => t
  | none => (0, "")

/-- Modelled from the spec: the helper `errorStatusCode`, absent from the
sources.  Section 3: the explicit code when one is attached; otherwise 400
with a `userMessage` and 500 without. -/
def errorStatusCode (e : ErrorDescriptor) : Int :=
  match e.statusCode with
  | some code => code
  | none => if e.userMessage = "" then StatusInternalServerError else StatusBadRequest

/-- Modelled from the spec: the helpers of the error descriptor, as the
dispatcher takes them. -/
def descriptorOps : ErrorOps ErrorDescriptor :=
  { Error := fun e => e.logMessage
    userErrorMessage := userErrorMessage
    errorRedirect := errorRedirect
    errorStatusCode := errorStatusCode }

/-! ## Sample inputs -/

/-- A sample of the external functions: the permission is held when the
header `X-Sandstorm-Permissions` lists it alone, the body `multipart` parses
into a form with one temporary file, the body `broken` fails to parse, any
other body is not multipart, and removing temporary files succeeds. -/
def sampleDeps : Deps :=
  { HasPermission := fun hdr perm => hdr.contains ("X-Sandstorm-Permissions", perm)
    ParseMultipartForm := fun r _ =>
      if r.Body = "multipart" then
        ({ r with MultipartForm := some { Value := [("title", "x")], File := ["/tmp/multipart-1"] } },
          none)
      else if r.Body = "broken" then
        (r, some (GoError.errorString "unexpected EOF"))
      else
        (r, some GoError.ErrNotMultipart)
    RemoveAll := fun _ => none
    parsed_form := by
      intro r n h
      by_cases hb : r.Body = "multipart"
      · simp [hb]
      · by_cases hc : r.Body = "broken" <;> simp [hb, hc] at h }

/-- A sample request with the given header and body. -/
def sampleRequest (hdr : List (String × String)) (body : String) : Request :=
  { Method := "POST", Path := "/entry", Header := hdr, Body := body, MultipartForm := none }

/-- The sample multipart request as `ParseMultipartForm` leaves it. -/
def parsedRequest : Request :=
  { Method := "POST", Path := "/entry", Header := [], Body := "multipart",
    MultipartForm := some { Value := [("title", "x")], File := ["/tmp/multipart-1"] } }

/-- A sample world: nothing logged, and a counter owned by the handlers. -/
def sampleWorld : World Nat :=
  { effects := [], app := 0 }

/-- A sample `http.Handler`: it counts its invocations and writes 200. -/
def countingHandler : Handler Nat :=
  fun w _ σ => some (w ++ [WriterCall.writeHeader 200], { σ with app := σ.app + 1 })

/-- A sample business handler: it counts its invocations, optionally writes a
status code through the tracker, and returns the given error. -/
def sampleApp (code : Option Int) (err : Option ErrorDescriptor) :
    appHandler ErrorDescriptor Nat :=
  fun stats _ σ =>
    (err,
      match code with
      | some c => stats.WriteHeader c
      | none => stats,
      { σ with app := σ.app + 1 })

/-- A handler failure that carries an explicit status code and no message for
the caller. -/
def unavailableError : ErrorDescriptor :=
  { logMessage := "database unavailable", userMessage := "", statusCode := some 503,
    redirectTarget := none }

/-- A handler failure with a message for the caller and no explicit status
code. -/
def passwordError : ErrorDescriptor :=
  { logMessage := "bad password for entry 7", userMessage := "invalid password",
    statusCode := none, redirectTarget := none }

/-- A handler failure that carries a redirect target. -/
def loginError : ErrorDescriptor :=
  { logMessage := "no session", userMessage := "", statusCode := none,
    redirectTarget := some (302, "/login") }

/-- The number of `RemoveAll` calls among the effects. -/
def removals : List Effect → Nat
  | [] => 0
  | Effect.removedAll _ :: es => removals es + 1
  | Effect.logged _ :: es => removals es

/-! ## Lemmas -/

/-- The `RemoveAll` calls of two runs of effects add up. -/
theorem removals_append (xs ys : List Effect) :
    removals (xs ++ ys) = removals xs + removals ys := by
  induction xs with
  | nil => simp [removals]
  | cons x xs ih =>
    cases x with
    | logged line => simpa [removals] using ih
    | removedAll form => simp [removals, ih]; omega

/-- The error `parseMultipartForm` returns is never `ErrNotMultipart`. -/
theorem parseMultipartForm_err (d : Deps) (fl : Flags) (r r1 : Request) (c : Cleanup)
    (e : GoError) (h : parseMultipartForm d fl r = (r1, c, some e)) :
    (d.ParseMultipartForm r fl.maxFormMemory) = (r1, some e) ∧ e ≠ GoError.ErrNotMultipart ∧
      c = Cleanup.nil := by
  unfold parseMultipartForm at h
  rcases hres : d.ParseMultipartForm r fl.maxFormMemory with ⟨r2, err⟩
  rw [hres] at h
  by_cases hn : err = some GoError.ErrNotMultipart
  · simp [hn] at h
  · cases err with
    | none => simp at h
    | some e2 =>
      simp [hn] at h
      obtain ⟨h1, h2, h3⟩ := h
      subst h1 h3
      refine ⟨rfl, ?_, h2.symm⟩
      intro he
      exact hn (by rw [he])

/-- When `parseMultipartForm` returns no error, its cleanup action is one of
the two function literals, and the one that captures the request finds the
form set. -/
theorem parseMultipartForm_ok (d : Deps) (fl : Flags) (r r1 : Request) (c : Cleanup)
    (h : parseMultipartForm d fl r = (r1, c, none)) :
    c = Cleanup.noop ∨ (c = Cleanup.removeAll r1 ∧ ∃ form, r1.MultipartForm = some form) := by
  unfold parseMultipartForm at h
  have hc := d.parsed_form r fl.maxFormMemory
  rcases hres : d.ParseMultipartForm r fl.maxFormMemory with ⟨r2, err⟩
  rw [hres] at h hc
  by_cases hn : err = some GoError.ErrNotMultipart
  · simp [hn] at h
    exact Or.inl h.2.symm
  · cases err with
    | some e2 => simp [hn] at h
    | none =>
      simp at h
      obtain ⟨h1, h2⟩ := h
      subst h1
      right
      refine ⟨h2.symm, ?_⟩
      have := hc rfl
      exact Option.ne_none_iff_exists'.mp this

/-! ## The permission gate: theorems -/

/-- C1: with enforcement enabled and the permission check returning false,
the handler returned by `checkPerm perm h` makes exactly one call on the sink,
`http.Error` with body "Forbidden" and status 403, and leaves the world as it
found it.  The result is the same for every `h`: the inner handler is not
invoked. -/
theorem checkPerm_forbidden {S : Type} (d : Deps) (fl : Flags) (perm : String)
    (h : Handler S) (w : ResponseWriter) (r : Request) (σ : World S)
    (hen : fl.permissions = true) (hperm : d.HasPermission r.Header perm = false) :
    checkPerm d fl perm h w r σ = some (w ++ [WriterCall.httpError "Forbidden" 403], σ) := by
  simp [checkPerm, hen, hperm, httpError, StatusForbidden]

/-- Witness of C1: a request without the permission header, against a handler
that counts its invocations. -/
theorem checkPerm_forbidden_witness :
    Flags.defaults.permissions = true ∧
    sampleDeps.HasPermission (sampleRequest [] "").Header "write" = false ∧
    checkPerm sampleDeps Flags.defaults "write" countingHandler [] (sampleRequest [] "")
      sampleWorld = some ([] ++ [WriterCall.httpError "Forbidden" 403], sampleWorld) :=
  ⟨rfl, rfl, checkPerm_forbidden sampleDeps Flags.defaults "write" countingHandler []
    (sampleRequest [] "") sampleWorld rfl rfl⟩

/-- C8: the permission gate is transparent when it lets a request through.
With enforcement disabled `checkPerm perm h` is `h`, whatever the permission
check is; with enforcement enabled and the check returning true, the wrapped
handler gives exactly what `h` gives on the same sink, request and world. -/
theorem checkPerm_transparent {S : Type} (d : Deps) (fl : Flags) (perm : String)
    (h : Handler S) :
    (fl.permissions = false → checkPerm d fl perm h = h) ∧
    (∀ (w : ResponseWriter) (r : Request) (σ : World S), fl.permissions = true →
      d.HasPermission r.Header perm = true → checkPerm d fl perm h w r σ = h w r σ) := by
  constructor
  · intro hen
    simp [checkPerm, hen]
  · intro w r σ hen hperm
    simp [checkPerm, hen, hperm]

/-- Witness of C8: the gate disabled, and the gate enabled on a request that
carries the permission. -/
theorem checkPerm_transparent_witness :
    checkPerm sampleDeps { maxFormMemory := 0, permissions := false } "write" countingHandler
      = countingHandler ∧
    sampleDeps.HasPermission
      (sampleRequest [("X-Sandstorm-Permissions", "write")] "").Header "write" = true ∧
    checkPerm sampleDeps Flags.defaults "write" countingHandler []
        (sampleRequest [("X-Sandstorm-Permissions", "write")] "") sampleWorld
      = countingHandler [] (sampleRequest [("X-Sandstorm-Permissions", "write")] "")
        sampleWorld :=
  ⟨(checkPerm_transparent sampleDeps { maxFormMemory := 0, permissions := false } "write"
      countingHandler).1 rfl,
    by decide,
    (checkPerm_transparent sampleDeps Flags.defaults "write" countingHandler).2 []
      (sampleRequest [("X-Sandstorm-Permissions", "write")] "") sampleWorld rfl (by decide)⟩

/-! ## The form parser and the dispatcher: theorems -/

/-- C2: when `ParseMultipartForm` fails with an error other than
`ErrNotMultipart`, `ServeHTTP` makes exactly one call on the sink, `http.Error`
with body "could not parse form" and status 400, and only logs the failure.
The result is the same for every business handler: it is not invoked. -/
theorem ServeHTTP_parse_failure {E S : Type} (d : Deps) (fl : Flags) (ops : ErrorOps E)
    (ah : appHandler E S) (w : ResponseWriter) (r r1 : Request) (σ : World S) (e : GoError)
    (hparse : d.ParseMultipartForm r fl.maxFormMemory = (r1, some e))
    (hne : e ≠ GoError.ErrNotMultipart) :
    ServeHTTP d fl ops ah w r σ =
      some (w ++ [WriterCall.httpError "could not parse form" 400],
        logPrintf (r1.Method ++ " " ++ r1.Path ++ " fail form parse: " ++ e.Error) σ) := by
  have hp : parseMultipartForm d fl r = (r1, Cleanup.nil, some e) := by
    simp [parseMultipartForm, hparse, hne]
  simp [ServeHTTP, hp, httpError, StatusBadRequest]

/-- Witness of C2: a request whose body fails to parse. -/
theorem ServeHTTP_parse_failure_witness :
    sampleDeps.ParseMultipartForm (sampleRequest [] "broken") Flags.defaults.maxFormMemory
      = (sampleRequest [] "broken", some (GoError.errorString "unexpected EOF")) ∧
    ServeHTTP sampleDeps Flags.defaults descriptorOps (sampleApp none none) []
        (sampleRequest [] "broken") sampleWorld
      = some ([WriterCall.httpError "could not parse form" 400],
          { effects := [Effect.logged "POST /entry fail form parse: unexpected EOF"],
            app := 0 }) :=
  ⟨by decide,
    (ServeHTTP_parse_failure sampleDeps Flags.defaults descriptorOps (sampleApp none none) []
      (sampleRequest [] "broken") (sampleRequest [] "broken") sampleWorld
      (GoError.errorString "unexpected EOF") (by decide) (by decide)).trans (by decide)⟩

/-- The cleanup action returned without an error never panics; it leaves the
state of the handlers alone and appends its effects, among them one
`RemoveAll` call unless it is the no-op. -/
theorem Cleanup.call_of_parsed {S : Type} (d : Deps) (fl : Flags) (r r1 : Request)
    (c : Cleanup) (hp : parseMultipartForm d fl r = (r1, c, none)) (σ : World S) :
    ∃ tl, c.call d σ = some { effects := σ.effects ++ tl, app := σ.app } ∧
      removals tl = if c = Cleanup.noop then 0 else 1 := by
  rcases parseMultipartForm_ok d fl r r1 c hp with hc | ⟨hc, form, hform⟩
  · subst hc
    exact ⟨[], by simp [Cleanup.call], by simp [removals]⟩
  · subst hc
    cases hrm : d.RemoveAll form with
    | none =>
      exact ⟨[Effect.removedAll form], by simp [Cleanup.call, hform, hrm], by simp [removals]⟩
    | some err =>
      refine ⟨[Effect.removedAll form, Effect.logged ("form cleanup: " ++ err.Error)], ?_, ?_⟩
      · simp [Cleanup.call, hform, hrm, logPrintf]
      · simp [removals]

/-- What the dispatcher does with the result of the handler leaves the state
of the handlers alone and appends only log lines. -/
theorem ServeHTTP.finish_world {E S : Type} (ops : ErrorOps E) (r : Request)
    (res : Option E × ResponseStats × World S) :
    ∃ tl, (ServeHTTP.finish ops r res).2 = { effects := res.2.2.effects ++ tl, app := res.2.2.app } ∧
      removals tl = 0 := by
  obtain ⟨err, stats, σ⟩ := res
  cases err with
  | none => exact ⟨[], by simp [ServeHTTP.finish], rfl⟩
  | some e =>
    by_cases hm : ops.userErrorMessage e = ""
    · refine ⟨[Effect.logged (r.Method ++ " " ++ r.Path ++ " server error: " ++ ops.Error e)],
        ?_, rfl⟩
      simp only [ServeHTTP.finish, if_pos hm, logPrintf]
      split_ifs <;> rfl
    · refine ⟨[Effect.logged (r.Method ++ " " ++ r.Path ++ " client error: " ++ ops.Error e)],
        ?_, rfl⟩
      simp only [ServeHTTP.finish, if_neg hm, logPrintf]
      split_ifs <;> rfl

/-- When form parsing succeeds, `ServeHTTP` returns: the sink is the one the
handling of the result leaves, and the world is the one the cleanup action
leaves. -/
theorem ServeHTTP_of_parsed {E S : Type} (d : Deps) (fl : Flags) (ops : ErrorOps E)
    (ah : appHandler E S) (w : ResponseWriter) (r r1 : Request) (σ : World S) (c : Cleanup)
    (hp : parseMultipartForm d fl r = (r1, c, none)) :
    ∃ σ3, c.call d (ServeHTTP.finish ops r1 (ah (ResponseStats.New w) r1 σ)).2 = some σ3 ∧
      ServeHTTP d fl ops ah w r σ =
        some ((ServeHTTP.finish ops r1 (ah (ResponseStats.New w) r1 σ)).1, σ3) := by
  obtain ⟨tl, htl, -⟩ := Cleanup.call_of_parsed d fl r r1 c hp
    (ServeHTTP.finish ops r1 (ah (ResponseStats.New w) r1 σ)).2
  refine ⟨_, htl, ?_⟩
  simp [ServeHTTP, hp, htl]

/-- C3: when the error of the handler carries a redirect target (the URL
`errorRedirect` gives is not empty), `ServeHTTP` returns with the sink holding
what the handler left followed by exactly one call, `http.Redirect` to that URL
with that status code, whatever status code the tracker reports; no
`http.Error` call is made. -/
theorem ServeHTTP_redirect {E S : Type} (d : Deps) (fl : Flags) (ops : ErrorOps E)
    (ah : appHandler E S) (w : ResponseWriter) (r r1 : Request) (σ σ1 : World S) (c : Cleanup)
    (err : E) (stats : ResponseStats) (code : Int) (u : String)
    (hp : parseMultipartForm d fl r = (r1, c, none))
    (hah : ah (ResponseStats.New w) r1 σ = (some err, stats, σ1))
    (hredir : ops.errorRedirect err = (code, u)) (hu : u ≠ "") :
    (ServeHTTP d fl ops ah w r σ).map Prod.fst =
      some (stats.w ++ [WriterCall.httpRedirect r1 u code]) := by
  obtain ⟨σ3, -, hs⟩ := ServeHTTP_of_parsed d fl ops ah w r r1 σ c hp
  rw [hs, hah]
  simp [ServeHTTP.finish, hredir, hu, httpRedirect]

/-- C6: when the handler fails without a redirect target after the tracker
has seen a status code, `ServeHTTP` returns with the sink exactly as the
handler left it. -/
theorem ServeHTTP_already_written {E S : Type} (d : Deps) (fl : Flags) (ops : ErrorOps E)
    (ah : appHandler E S) (w : ResponseWriter) (r r1 : Request) (σ σ1 : World S) (c : Cleanup)
    (err : E) (stats : ResponseStats)
    (hp : parseMultipartForm d fl r = (r1, c, none))
    (hah : ah (ResponseStats.New w) r1 σ = (some err, stats, σ1))
    (hredir : (ops.errorRedirect err).2 = "") (hcode : stats.StatusCode ≠ 0) :
    (ServeHTTP d fl ops ah w r σ).map Prod.fst = some stats.w := by
  obtain ⟨σ3, -, hs⟩ := ServeHTTP_of_parsed d fl ops ah w r r1 σ c hp
  rw [hs, hah]
  simp [ServeHTTP.finish, hredir, hcode]

/-- C9: when form parsing succeeds and the handler returns no error,
`ServeHTTP` returns with the sink exactly as the one invocation of the handler
on the tracked sink and the request left it, and the world is the one the
handler left, after the cleanup action; the dispatcher logs nothing. -/
theorem ServeHTTP_success {E S : Type} (d : Deps) (fl : Flags) (ops : ErrorOps E)
    (ah : appHandler E S) (w : ResponseWriter) (r r1 : Request) (σ σ1 : World S) (c : Cleanup)
    (stats : ResponseStats)
    (hp : parseMultipartForm d fl r = (r1, c, none))
    (hah : ah (ResponseStats.New w) r1 σ = (none, stats, σ1)) :
    (ServeHTTP d fl ops ah w r σ).map Prod.fst = some stats.w ∧
    (ServeHTTP d fl ops ah w r σ).map Prod.snd = c.call d σ1 := by
  obtain ⟨σ3, hc, hs⟩ := ServeHTTP_of_parsed d fl ops ah w r r1 σ c hp
  rw [hah] at hc hs
  simp only [ServeHTTP.finish] at hc hs
  rw [hs, hc]
  simp

/-- C4, as stated, fails on the error descriptor of the spec: a failure with
no message for the caller, no redirect target, nothing written by the handler
and the explicit status code 503 is answered with status 503, not 500. -/
theorem ServeHTTP_internal_error_counterexample :
    userErrorMessage unavailableError = "" ∧
    (errorRedirect unavailableError).2 = "" ∧
    (sampleApp none (some unavailableError) (ResponseStats.New []) (sampleRequest [] "")
      sampleWorld).2.1.StatusCode = 0 ∧
    (ServeHTTP sampleDeps Flags.defaults descriptorOps (sampleApp none (some unavailableError))
        [] (sampleRequest [] "") sampleWorld).map Prod.fst
      = some [WriterCall.httpError "internal server error; check logs" 503] ∧
    (ServeHTTP sampleDeps Flags.defaults descriptorOps (sampleApp none (some unavailableError))
        [] (sampleRequest [] "") sampleWorld).map Prod.fst
      ≠ some [WriterCall.httpError "internal server error; check logs" 500] := by
  decide

/-- C4, amended: for a handler failure with no message for the caller, no
redirect target and no status code seen by the tracker, `ServeHTTP` returns
with the sink holding what the handler left followed by exactly one call,
`http.Error` with body "internal server error; check logs" and with status 500
when no status code is attached to the error, otherwise the attached code. -/
theorem ServeHTTP_internal_error {S : Type} (d : Deps) (fl : Flags)
    (ah : appHandler ErrorDescriptor S) (w : ResponseWriter) (r r1 : Request)
    (σ σ1 : World S) (c : Cleanup) (err : ErrorDescriptor) (stats : ResponseStats)
    (hp : parseMultipartForm d fl r = (r1, c, none))
    (hah : ah (ResponseStats.New w) r1 σ = (some err, stats, σ1))
    (hmsg : userErrorMessage err = "") (hredir : (errorRedirect err).2 = "")
    (hcode : stats.StatusCode = 0) :
    (ServeHTTP d fl descriptorOps ah w r σ).map Prod.fst =
      some (stats.w ++ [WriterCall.httpError "internal server error; check logs"
        (err.statusCode.getD 500)]) := by
  obtain ⟨σ3, -, hs⟩ := ServeHTTP_of_parsed d fl descriptorOps ah w r r1 σ c hp
  rw [hs, hah]
  have hm : err.userMessage = "" := hmsg
  cases hsc : err.statusCode <;>
    simp [ServeHTTP.finish, descriptorOps, hmsg, hredir, hcode, httpError, errorStatusCode,
      hsc, hm, StatusInternalServerError]

/-- Witness of C4, amended: a non-multipart request whose handler fails with
an internal error and no status code of its own. -/
theorem ServeHTTP_internal_error_witness :
    parseMultipartForm sampleDeps Flags.defaults (sampleRequest [] "")
      = (sampleRequest [] "", Cleanup.noop, none) ∧
    (ServeHTTP sampleDeps Flags.defaults descriptorOps
        (sampleApp none (some { unavailableError with statusCode := none }))
        [] (sampleRequest [] "") sampleWorld).map Prod.fst
      = some [WriterCall.httpError "internal server error; check logs" 500] :=
  ⟨by decide,
    ServeHTTP_internal_error sampleDeps Flags.defaults
      (sampleApp none (some { unavailableError with statusCode := none }))
      [] (sampleRequest [] "") (sampleRequest [] "") sampleWorld { effects := [], app := 1 }
      Cleanup.noop { unavailableError with statusCode := none } (ResponseStats.New [])
      (by decide) (by decide) (by decide) (by decide) (by decide)⟩

/-- C5: for a handler failure with a message for the caller, no redirect
target and no status code seen by the tracker, `ServeHTTP` returns with the
sink holding what the handler left followed by exactly one call, `http.Error`
with that message as body and with status 400 when no status code is attached
to the error, otherwise the attached code. -/
theorem ServeHTTP_client_error {S : Type} (d : Deps) (fl : Flags)
    (ah : appHandler ErrorDescriptor S) (w : ResponseWriter) (r r1 : Request)
    (σ σ1 : World S) (c : Cleanup) (err : ErrorDescriptor) (stats : ResponseStats)
    (hp : parseMultipartForm d fl r = (r1, c, none))
    (hah : ah (ResponseStats.New w) r1 σ = (some err, stats, σ1))
    (hmsg : userErrorMessage err ≠ "") (hredir : (errorRedirect err).2 = "")
    (hcode : stats.StatusCode = 0) :
    (ServeHTTP d fl descriptorOps ah w r σ).map Prod.fst =
      some (stats.w ++ [WriterCall.httpError err.userMessage (err.statusCode.getD 400)]) := by
  obtain ⟨σ3, -, hs⟩ := ServeHTTP_of_parsed d fl descriptorOps ah w r r1 σ c hp
  rw [hs, hah]
  have hm : ¬ err.userMessage = "" := hmsg
  cases hsc : err.statusCode <;>
    simp [ServeHTTP.finish, descriptorOps, hredir, hcode, httpError, errorStatusCode,
      hsc, hm, StatusBadRequest, userErrorMessage]

/-- Witness of C5: a multipart request whose handler fails with "invalid
password" and no status code. -/
theorem ServeHTTP_client_error_witness :
    parseMultipartForm sampleDeps Flags.defaults (sampleRequest [] "multipart")
      = (parsedRequest, Cleanup.removeAll parsedRequest, none) ∧
    (ServeHTTP sampleDeps Flags.defaults descriptorOps (sampleApp none (some passwordError))
        [] (sampleRequest [] "multipart") sampleWorld).map Prod.fst
      = some [WriterCall.httpError "invalid password" 400] :=
  ⟨by decide,
    ServeHTTP_client_error sampleDeps Flags.defaults (sampleApp none (some passwordError))
      [] (sampleRequest [] "multipart") parsedRequest sampleWorld { effects := [], app := 1 }
      (Cleanup.removeAll parsedRequest) passwordError (ResponseStats.New [])
      (by decide) (by decide) (by decide) (by decide) (by decide)⟩

/-- Witness of C3: a handler that writes status 200 and then fails with a
redirect to "/login". -/
theorem ServeHTTP_redirect_witness :
    parseMultipartForm sampleDeps Flags.defaults (sampleRequest [] "multipart")
      = (parsedRequest, Cleanup.removeAll parsedRequest, none) ∧
    (ServeHTTP sampleDeps Flags.defaults descriptorOps
        (sampleApp (some 200) (some loginError)) [] (sampleRequest [] "multipart")
        sampleWorld).map Prod.fst
      = some [WriterCall.writeHeader 200, WriterCall.httpRedirect parsedRequest "/login" 302] :=
  ⟨by decide,
    ServeHTTP_redirect sampleDeps Flags.defaults descriptorOps
      (sampleApp (some 200) (some loginError)) [] (sampleRequest [] "multipart") parsedRequest
      sampleWorld { effects := [], app := 1 } (Cleanup.removeAll parsedRequest) loginError
      ((ResponseStats.New []).WriteHeader 200) 302 "/login"
      (by decide) (by decide) (by decide) (by decide)⟩

/-- Witness of C6: a handler that writes status 422 and then fails. -/
theorem ServeHTTP_already_written_witness :
    parseMultipartForm sampleDeps Flags.defaults (sampleRequest [] "multipart")
      = (parsedRequest, Cleanup.removeAll parsedRequest, none) ∧
    ((ResponseStats.New []).WriteHeader 422).StatusCode ≠ 0 ∧
    (ServeHTTP sampleDeps Flags.defaults descriptorOps
        (sampleApp (some 422) (some passwordError)) [] (sampleRequest [] "multipart")
        sampleWorld).map Prod.fst
      = some [WriterCall.writeHeader 422] :=
  ⟨by decide, by decide,
    ServeHTTP_already_written sampleDeps Flags.defaults descriptorOps
      (sampleApp (some 422) (some passwordError)) [] (sampleRequest [] "multipart")
      parsedRequest sampleWorld { effects := [], app := 1 } (Cleanup.removeAll parsedRequest)
      passwordError ((ResponseStats.New []).WriteHeader 422)
      (by decide) (by decide) (by decide) (by decide)⟩

/-- Witness of C9: a handler that writes nothing and returns no error, on a
multipart request. -/
theorem ServeHTTP_success_witness :
    parseMultipartForm sampleDeps Flags.defaults (sampleRequest [] "multipart")
      = (parsedRequest, Cleanup.removeAll parsedRequest, none) ∧
    (ServeHTTP sampleDeps Flags.defaults descriptorOps (sampleApp none none) []
        (sampleRequest [] "multipart") sampleWorld).map Prod.fst = some [] ∧
    (ServeHTTP sampleDeps Flags.defaults descriptorOps (sampleApp none none) []
        (sampleRequest [] "multipart") sampleWorld).map Prod.snd
      = (Cleanup.removeAll parsedRequest).call sampleDeps { effects := [], app := 1 } :=
  ⟨by decide,
    ServeHTTP_success sampleDeps Flags.defaults descriptorOps (sampleApp none none) []
      (sampleRequest [] "multipart") parsedRequest sampleWorld { effects := [], app := 1 }
      (Cleanup.removeAll parsedRequest) (ResponseStats.New []) (by decide) (by decide)⟩

/-- C7: when form parsing succeeds, `ServeHTTP` calls the cleanup action that
`parseMultipartForm` returned once, on the world that the handler and the
handling of its result leave, whatever the handler returns.  In the final
world the effects of the handler come first, the number of `RemoveAll` calls
is the number the handler left plus one (plus none for the no-op action), and
the state of the handlers is as the handler left it. -/
theorem ServeHTTP_cleanup_once {E S : Type} (d : Deps) (fl : Flags) (ops : ErrorOps E)
    (ah : appHandler E S) (w : ResponseWriter) (r r1 : Request) (σ : World S) (c : Cleanup)
    (hp : parseMultipartForm d fl r = (r1, c, none)) :
    ServeHTTP d fl ops ah w r σ =
      (c.call d (ServeHTTP.finish ops r1 (ah (ResponseStats.New w) r1 σ)).2).map
        (fun σ3 => ((ServeHTTP.finish ops r1 (ah (ResponseStats.New w) r1 σ)).1, σ3)) ∧
    (ServeHTTP d fl ops ah w r σ).map (fun out => removals out.2.effects) =
      some (removals (ah (ResponseStats.New w) r1 σ).2.2.effects +
        (if c = Cleanup.noop then 0 else 1)) ∧
    (ServeHTTP d fl ops ah w r σ).map
        (fun out => out.2.effects.take (ah (ResponseStats.New w) r1 σ).2.2.effects.length) =
      some (ah (ResponseStats.New w) r1 σ).2.2.effects ∧
    (ServeHTTP d fl ops ah w r σ).map (fun out => out.2.app) =
      some (ah (ResponseStats.New w) r1 σ).2.2.app := by
  obtain ⟨σ3, hc, hs⟩ := ServeHTTP_of_parsed d fl ops ah w r r1 σ c hp
  obtain ⟨tl, htl, hcount⟩ := Cleanup.call_of_parsed d fl r r1 c hp
    (ServeHTTP.finish ops r1 (ah (ResponseStats.New w) r1 σ)).2
  obtain ⟨logs, hlogs, hlogcount⟩ :=
    ServeHTTP.finish_world ops r1 (ah (ResponseStats.New w) r1 σ)
  have h3 : σ3 =
      { effects := ((ah (ResponseStats.New w) r1 σ).2.2.effects ++ logs) ++ tl
        app := (ah (ResponseStats.New w) r1 σ).2.2.app } := by
    rw [htl] at hc
    rw [← Option.some.inj hc, hlogs]
  refine ⟨?_, ?_, ?_, ?_⟩
  · rw [hs, hc]
    rfl
  · rw [hs, h3]
    simp [removals_append, hlogcount, hcount]
  · rw [hs, h3]
    simp [List.append_assoc]
  · rw [hs, h3]
    rfl

/-- Witness of C7: a multipart request whose handler logs nothing and fails
with a message for the caller; the final world holds the log line of the
dispatcher followed by the one `RemoveAll` call. -/
theorem ServeHTTP_cleanup_once_witness :
    parseMultipartForm sampleDeps Flags.defaults (sampleRequest [] "multipart")
      = (parsedRequest, Cleanup.removeAll parsedRequest, none) ∧
    ServeHTTP sampleDeps Flags.defaults descriptorOps (sampleApp none (some passwordError)) []
        (sampleRequest [] "multipart") sampleWorld
      = some ([WriterCall.httpError "invalid password" 400],
          { effects := [Effect.logged "POST /entry client error: bad password for entry 7",
              Effect.removedAll { Value := [("title", "x")], File := ["/tmp/multipart-1"] }],
            app := 1 }) ∧
    (ServeHTTP sampleDeps Flags.defaults descriptorOps (sampleApp none (some passwordError)) []
        (sampleRequest [] "multipart") sampleWorld).map (fun out => removals out.2.effects)
      = some 1 :=
  ⟨by decide,
    (ServeHTTP_cleanup_once sampleDeps Flags.defaults descriptorOps
      (sampleApp none (some passwordError)) [] (sampleRequest [] "multipart") parsedRequest
      sampleWorld (Cleanup.removeAll parsedRequest) (by decide)).1.trans (by decide),
    (ServeHTTP_cleanup_once sampleDeps Flags.defaults descriptorOps
      (sampleApp none (some passwordError)) [] (sampleRequest [] "multipart") parsedRequest
      sampleWorld (Cleanup.removeAll parsedRequest) (by decide)).2.1.trans (by decide)⟩

/-- C10: when `ParseMultipartForm` reports `ErrNotMultipart`,
`parseMultipartForm` returns no error and the no-op cleanup action, which is
not nil; calling that action any number of times never panics and leaves the
world, log included, as it is; and `ServeHTTP` runs the business handler and
returns what the handling of its result leaves. -/
theorem parseMultipartForm_not_multipart {E S : Type} (d : Deps) (fl : Flags)
    (ops : ErrorOps E) (ah : appHandler E S) (w : ResponseWriter) (r r1 : Request)
    (σ : World S)
    (hparse : d.ParseMultipartForm r fl.maxFormMemory = (r1, some GoError.ErrNotMultipart)) :
    parseMultipartForm d fl r = (r1, Cleanup.noop, none) ∧
    Cleanup.noop ≠ Cleanup.nil ∧
    (∀ (n : Nat) (σ0 : World S),
      Nat.iterate (fun o => Option.bind o (Cleanup.noop.call d)) n (some σ0) = some σ0) ∧
    ServeHTTP d fl ops ah w r σ =
      some (ServeHTTP.finish ops r1 (ah (ResponseStats.New w) r1 σ)) := by
  have hp : parseMultipartForm d fl r = (r1, Cleanup.noop, none) := by
    simp [parseMultipartForm, hparse]
  refine ⟨hp, by decide, ?_, ?_⟩
  · intro n σ0
    induction n with
    | zero => rfl
    | succ n ih =>
      rw [Function.iterate_succ_apply]
      simpa [Cleanup.call] using ih
  · simp [ServeHTTP, hp, Cleanup.call]

/-- Witness of C10: a request with a plain body; the handler runs, as the
counter shows, and calling the cleanup action three times changes nothing. -/
theorem parseMultipartForm_not_multipart_witness :
    sampleDeps.ParseMultipartForm (sampleRequest [] "a=b") Flags.defaults.maxFormMemory
      = (sampleRequest [] "a=b", some GoError.ErrNotMultipart) ∧
    parseMultipartForm sampleDeps Flags.defaults (sampleRequest [] "a=b")
      = (sampleRequest [] "a=b", Cleanup.noop, none) ∧
    Nat.iterate (fun o => Option.bind o (Cleanup.noop.call sampleDeps)) 3 (some sampleWorld)
      = some sampleWorld ∧
    ServeHTTP sampleDeps Flags.defaults descriptorOps (sampleApp (some 204) none) []
        (sampleRequest [] "a=b") sampleWorld
      = some ([WriterCall.writeHeader 204], { effects := [], app := 1 }) :=
  ⟨by decide,
    (parseMultipartForm_not_multipart sampleDeps Flags.defaults descriptorOps
      (sampleApp (some 204) none) [] (sampleRequest [] "a=b") (sampleRequest [] "a=b")
      sampleWorld (by decide)).1,
    (parseMultipartForm_not_multipart sampleDeps Flags.defaults descriptorOps
      (sampleApp (some 204) none) [] (sampleRequest [] "a=b") (sampleRequest [] "a=b")
      sampleWorld (by decide)).2.2.1 3 sampleWorld,
    (parseMultipartForm_not_multipart sampleDeps Flags.defaults descriptorOps
      (sampleApp (some 204) none) [] (sampleRequest [] "a=b") (sampleRequest [] "a=b")
      sampleWorld (by decide)).2.2.2.trans (by decide)⟩

end Sandpass
